import Mathlib

/-!
# Verification of the passwordless-client ceremony code

A shallow embedding of `src/dist/passwordlessclient.mjs`: the base64url
codec (`coerceToArrayBuffer` / `coerceToBase64Url`, including models of the
browser builtins `btoa` and `atob` per the WHATWG forgiving-base64
algorithm), the capability gate (`isBrowserSupported` / `checkSupport`), the
cookie-based hint store, and the `register` / `signin` ceremony flows with
the external collaborators (HTTP transport, platform credential provider,
cookie jar) supplied as explicit environment values and all observable
effects (fetches, cookie writes, platform invocations) recorded in a trace.
-/

set_option maxRecDepth 4000

/-! ## Base64 / base64url codec -/

/-- The standard base64 alphabet, index `n` holds the digit for sextet `n`. -/
def b64Chars : List Char :=
  ['A', 'B', 'C', 'D', 'E', 'F', 'G', 'H', 'I', 'J', 'K', 'L', 'M',
   'N', 'O', 'P', 'Q', 'R', 'S', 'T', 'U', 'V', 'W', 'X', 'Y', 'Z',
   'a', 'b', 'c', 'd', 'e', 'f', 'g', 'h', 'i', 'j', 'k', 'l', 'm',
   'n', 'o', 'p', 'q', 'r', 's', 't', 'u', 'v', 'w', 'x', 'y', 'z',
   '0', '1', '2', '3', '4', '5', '6', '7', '8', '9', '+', '/']

/-- Digit character for a sextet value. -/
def b64Char (n : Nat) : Char := b64Chars.getD n 'A'

/-- Index of a character in the base64 alphabet, `none` when absent
(the validation step of WHATWG forgiving-base64 decode). -/
def b64Index (c : Char) : Option Nat := b64Chars.findIdx? (fun d => d = c)

/-- Bytes to sextets, 3 bytes to 4 sextets, as `btoa` groups them
(a final 1-byte group yields 2 sextets, a 2-byte group yields 3). -/
def toSextets : List Nat → List Nat
  | [] => []
  | [a] => [a / 4, a % 4 * 16]
  | [a, b] => [a / 4, a % 4 * 16 + b / 16, b % 16 * 4]
  | a :: b :: c :: rest =>
      (a / 4) :: (a % 4 * 16 + b / 16) :: (b % 16 * 4 + c / 64) :: (c % 64) :: toSextets rest

/-- Sextets back to bytes, leftover bits of a final partial group discarded,
as in WHATWG forgiving-base64 decode. -/
def atobCore : List Nat → List Nat
  | [] => []
  | [_] => []
  | [a, b] => [a * 4 + b / 16]
  | [a, b, c] => [a * 4 + b / 16, b % 16 * 16 + c / 4]
  | a :: b :: c :: d :: rest =>
      (a * 4 + b / 16) :: (b % 16 * 16 + c / 4) :: (c % 4 * 64 + d) :: atobCore rest

/-- The `=` padding `btoa` appends for a given byte list. -/
def padFor : List Nat → List Char
  | [] => []
  | [_] => ['=', '=']
  | [_, _] => ['=']
  | _ :: _ :: _ :: rest => padFor rest

/-- Model of the browser builtin `window.btoa` applied to a byte string:
standard base64 with `=` padding. -/
def btoa : List Nat → List Char
  | [] => []
  | [a] => [b64Char (a / 4), b64Char (a % 4 * 16), '=', '=']
  | [a, b] => [b64Char (a / 4), b64Char (a % 4 * 16 + b / 16), b64Char (b % 16 * 4), '=']
  | a :: b :: c :: rest =>
      b64Char (a / 4) :: b64Char (a % 4 * 16 + b / 16) ::
      b64Char (b % 16 * 4 + c / 64) :: b64Char (c % 64) :: btoa rest

/-- `s.replace(/a/g, b)` for a single character: the `.replace` calls of the
source act character-wise. -/
def jsReplaceChar (a b : Char) (s : List Char) : List Char :=
  s.map (fun c => if c = a then b else c)

/-- `thing.replace(/=*$/g, "")`: strip all trailing `=` characters. -/
def stripTrailingEq (s : List Char) : List Char :=
  (s.reverse.dropWhile (fun c => c = '=')).reverse

/-- The tail of `coerceToBase64Url`: base64 to base64url
(`+` to `-`, `/` to `_`, trailing `=` stripped). -/
def base64ToUrl (s : List Char) : List Char :=
  stripTrailingEq (jsReplaceChar '/' '_' (jsReplaceChar '+' '-' s))

/-- The head of `coerceToArrayBuffer` on a string: base64url to base64
(`-` to `+`, `_` to `/`). -/
def urlToBase64 (s : List Char) : List Char :=
  jsReplaceChar '_' '/' (jsReplaceChar '-' '+' s)

/-- ASCII whitespace, removed by WHATWG forgiving-base64 decode. -/
def isAsciiWhitespace (c : Char) : Bool :=
  c = ' ' || c = '\t' || c = '\n' || c = '\x0c' || c = '\r'

/-- Padding removal of WHATWG forgiving-base64 decode: when the length is a
multiple of 4, up to two trailing `=` are dropped. -/
def stripB64Padding (s : List Char) : List Char :=
  if s.length % 4 == 0 then
    if s.reverse.take 2 = ['=', '='] then s.dropLast.dropLast
    else if s.reverse.take 1 = ['='] then s.dropLast
    else s
  else s

/-- Model of the browser builtin `window.atob` (WHATWG forgiving-base64
decode); `none` models the `InvalidCharacterError` DOMException. -/
def atob (s : List Char) : Option (List Nat) :=
  if (stripB64Padding (s.filter (fun c => !isAsciiWhitespace c))).length % 4 == 1 then
    none
  else
    match (stripB64Padding (s.filter (fun c => !isAsciiWhitespace c))).mapM b64Index with
    | none => none
    | some sextets => some (atobCore sextets)

/-- JavaScript error values thrown by the client or its collaborators. -/
inductive JsError where
  /-- `new Error(msg)` -/
  | error (msg : String)
  /-- `new TypeError(msg)` -/
  | typeError (msg : String)
  /-- a DOMException, e.g. `InvalidCharacterError` from `atob` -/
  | domException (name : String)
  /-- an opaque rejection from the platform credential provider -/
  | platform (code : Nat)
  /-- a `fetch` network rejection -/
  | network (msg : String)
  /-- a `response.json()` body-parse rejection -/
  | parse (msg : String)
deriving DecidableEq

/-- The duck-typed values the codec functions accept: a string, a plain JS
`Array` of numbers, a `Uint8Array`, an `ArrayBuffer`, or anything else.
Byte-array contents are `List Nat`; `Uint8Array`/`ArrayBuffer` entries are
below 256 by construction in a real runtime, carried as a hypothesis here. -/
inductive BufLike where
  | str (s : List Char)
  | arr (a : List Nat)
  | u8 (a : List Nat)
  | buf (a : List Nat)
  | other
deriving DecidableEq

/-- `new Uint8Array(a)` on a plain array: each entry passes through ToUint8,
i.e. is reduced mod 256 (for the natural-number entries modelled here). -/
def newUint8Array (a : List Nat) : List Nat := a.map (fun x => x % 256)

/-- `coerceToArrayBuffer` of the source: strings are base64url-decoded via
`atob`, arrays are materialized as `Uint8Array`, `Uint8Array` yields its
buffer, `ArrayBuffer` passes through, anything else is a `TypeError`. The
result is the byte content of the final `ArrayBuffer`. -/
def coerceToArrayBuffer : BufLike → Except JsError (List Nat)
  | .str s =>
      match atob (urlToBase64 s) with
      | some bytes => .ok bytes
      | none => .error (.domException "InvalidCharacterError")
  | .arr a => .ok (newUint8Array a)
  | .u8 a => .ok a
  | .buf a => .ok a
  | .other => .error (.typeError "could not coerce to ArrayBuffer")

/-- `coerceToBase64Url` restricted to byte input (the branch the ceremonies
exercise: every call site passes a `Uint8Array`): `btoa`, then `+` to `-`,
`/` to `_`, then strip trailing `=`. -/
def coerceToBase64UrlBytes (a : List Nat) : List Char :=
  base64ToUrl (btoa a)

/-- `coerceToBase64Url` of the source on every accepted input shape: arrays
are materialized via `Uint8Array.from` (entries mod 256), buffers viewed as
`Uint8Array`, bytes passed to `btoa`; a string input skips encoding and only
undergoes the url-safe replacement and padding strip; anything else throws. -/
def coerceToBase64Url : BufLike → Except JsError (List Char)
  | .str s => .ok (base64ToUrl s)
  | .arr a => .ok (coerceToBase64UrlBytes (newUint8Array a))
  | .u8 a => .ok (coerceToBase64UrlBytes a)
  | .buf a => .ok (coerceToBase64UrlBytes a)
  | .other => .error (.error "could not coerce to string")

/-! ## Capability gate -/

/-- The `typeof` of a JavaScript value; the `window.PublicKeyCredential`
global is modelled by its `typeof` (the value `undefined` is exactly the
value whose `typeof` is `"undefined"`). -/
inductive JSType where
  | undefined
  | function
  | object
  | string
  | number
  | boolean
deriving DecidableEq

/-- The ambient `window`, reduced to the one global the gate inspects. -/
structure Window where
  publicKeyCredential : JSType
deriving DecidableEq

/-- `isBrowserSupported`: false when `window.PublicKeyCredential` is
`undefined` or its `typeof` is not `"function"`, true otherwise. -/
def isBrowserSupported (w : Window) : Bool :=
  if w.publicKeyCredential == JSType.undefined
      || w.publicKeyCredential != JSType.function then
    false
  else
    true

/-- The `Error` thrown by `checkSupport` (the spec calls it
`UnsupportedEnvironmentError`). -/
def unsupportedEnvironmentError : JsError :=
  JsError.error "WebAuthn and PublicKeyCredentials are not supported on this browser/device"

/-- `checkSupport`: throws when `isBrowserSupported` is false, no-op
otherwise. -/
def checkSupport (w : Window) : Except JsError Unit :=
  if !isBrowserSupported w then .error unsupportedEnvironmentError
  else .ok ()

/-! ## Configuration and hint store -/

/-- The client configuration (after the constructor's merge with defaults). -/
structure Config where
  apiUrl : String
  apiKey : String
  Origin : String
  RPID : String
  useHints : String
deriving DecidableEq

/-- A JavaScript value that may also be `null` or `undefined` (absent). -/
inductive JsOpt (α : Type) where
  | null
  | undefined
  | val (a : α)
deriving DecidableEq

/-! ## Wire shapes and requests -/

/-- `authenticatorSelection` of the begin response, reduced to the field the
client inspects. -/
structure AuthenticatorSelection where
  authenticatorAttachment : JsOpt String
deriving DecidableEq

/-- `user` of the registration begin response. -/
structure UserEntity where
  id : BufLike
deriving DecidableEq

/-- A credential descriptor of `excludeCredentials` / `allowCredentials`;
only its `id` is touched by the client. -/
structure CredDescriptor where
  id : BufLike
deriving DecidableEq

/-- `data` of the register/begin response. -/
structure RegisterOptions where
  challenge : BufLike
  user : UserEntity
  excludeCredentials : List CredDescriptor
  authenticatorSelection : AuthenticatorSelection
deriving DecidableEq

/-- `data` of the signin/begin response. -/
structure SigninOptions where
  challenge : BufLike
  allowCredentials : List CredDescriptor
deriving DecidableEq

/-- A begin response: `{data, sessionId}`. -/
structure BeginResponse (α : Type) where
  data : α
  sessionId : String
deriving DecidableEq

/-- A descriptor after its `id` was coerced to an `ArrayBuffer`. -/
structure AdaptedCredDescriptor where
  id : List Nat
deriving DecidableEq

/-- `user` after `user.id` was coerced to an `ArrayBuffer`. -/
structure AdaptedUser where
  id : List Nat
deriving DecidableEq

/-- The registration options as handed to `navigator.credentials.create`
after in-place adaptation. -/
structure AdaptedRegisterOptions where
  challenge : List Nat
  user : AdaptedUser
  excludeCredentials : List AdaptedCredDescriptor
  authenticatorSelection : AuthenticatorSelection
deriving DecidableEq

/-- The sign-in options as handed to `navigator.credentials.get` after
in-place adaptation. -/
structure AdaptedSigninOptions where
  challenge : List Nat
  allowCredentials : List AdaptedCredDescriptor
deriving DecidableEq

/-- `newCredential.response` for registration: byte contents of the two
`ArrayBuffer`s. -/
structure AttestationResponseData where
  attestationObject : List Nat
  clientDataJSON : List Nat
deriving DecidableEq

/-- The `PlatformCredential` returned by `navigator.credentials.create`;
`extensions` stands for the opaque `getClientExtensionResults()` value. -/
structure AttestationCredential where
  id : String
  rawId : List Nat
  type : String
  extensions : String
  response : AttestationResponseData
deriving DecidableEq

/-- `credential.response` for sign-in. -/
structure AssertionResponseData where
  authenticatorData : List Nat
  clientDataJSON : List Nat
  signature : List Nat
deriving DecidableEq

/-- The `PlatformCredential` returned by `navigator.credentials.get`. -/
structure AssertionCredential where
  id : String
  rawId : List Nat
  type : String
  extensions : String
  response : AssertionResponseData
deriving DecidableEq

/-- The nested `response` object of the register/complete request body
(field names as serialized, including the capitalised `AttestationObject`). -/
structure AttestationResponseWire where
  AttestationObject : List Char
  clientDataJson : List Char
deriving DecidableEq

/-- The `response` value of the register/complete request body. -/
structure AttestationWire where
  id : String
  rawId : List Char
  type : String
  extensions : String
  response : AttestationResponseWire
deriving DecidableEq

/-- The nested `response` object of the signin/complete request body. -/
structure AssertionResponseWire where
  authenticatorData : List Char
  clientDataJson : List Char
  signature : List Char
deriving DecidableEq

/-- The `response` value of the signin/complete request body. -/
structure AssertionWire where
  id : String
  rawId : List Char
  type : String
  extensions : String
  response : AssertionResponseWire
deriving DecidableEq

/-- The JSON request bodies of the four endpoints (after `JSON.stringify`;
the duplicated `sessionId` key of the register/complete literal collapses to
one entry as it does in a JS object literal). -/
inductive ReqBody where
  | registerBegin (token RPID Origin : String)
  | registerComplete (response : AttestationWire) (sessionId RPID Origin : String)
  | signinBegin (username RPID Origin : String)
  | signinComplete (response : AssertionWire) (sessionId RPID Origin : String)
deriving DecidableEq

/-- Observable effects of a ceremony, in order of occurrence. -/
inductive Effect where
  | fetch (url : String) (headers : List (String × String)) (body : ReqBody)
  | credentialsCreate (options : AdaptedRegisterOptions)
  | credentialsGet (options : AdaptedSigninOptions)
  | cookieSet (name value : String) (days : Nat)
deriving DecidableEq

/-- Headers of the register/begin and register/complete requests, in source
order. -/
def registerHeaders (cfg : Config) : List (String × String) :=
  [("Accept", "application/json"), ("Content-Type", "application/json"),
   ("ApiKey", cfg.apiKey)]

/-- Headers of the signin/begin and signin/complete requests, in source
order: no `Content-Type` entry appears in the source. -/
def signinHeaders (cfg : Config) : List (String × String) :=
  [("Accept", "application/json"), ("ApiKey", cfg.apiKey)]

/-- `setHint`: writes the cookie only under the `"cookie"` hint strategy
(`setCookie(hint, "1", 365)`). -/
def setHintEff (cfg : Config) (hint : String) : List Effect :=
  if cfg.useHints == "cookie" then [Effect.cookieSet hint "1" 365] else []

/-- The cookie jar, by name; `document.cookie` reduced to name/value pairs. -/
def CookieJar := List (String × String)

/-- Applying one effect to the cookie jar: a cookie write replaces any
previous cookie of the same name. -/
def applyEffect (jar : CookieJar) : Effect → CookieJar
  | .cookieSet n v _ => List.filter (fun p => p.1 != n) jar ++ [(n, v)]
  | _ => jar

/-- Applying a trace of effects to the cookie jar in order. -/
def applyEffects (jar : CookieJar) (l : List Effect) : CookieJar :=
  l.foldl applyEffect jar

/-- `getCookie`: the reduce over `document.cookie` keeps the last matching
entry, with `""` as the initial accumulator. -/
def getCookie (jar : CookieJar) (name : String) : String :=
  jar.foldl (fun r p => if p.1 == name then p.2 else r) ""

/-- `hasPasswordlessHint`: under the `"cookie"` strategy compares the cookie
to `"1"`; under any other strategy the function falls through and returns
`undefined`, modelled as `none`. -/
def hasPasswordlessHint (cfg : Config) (jar : CookieJar) : Option Bool :=
  if cfg.useHints == "cookie" then some (getCookie jar "hint-passwordless" == "1")
  else none

/-! ## Ceremony environments and flows -/

deriving instance DecidableEq for Except

/-- The `fetch` response of a complete endpoint: its HTTP status and the
result of `await response.json()` (which can itself reject). -/
structure HttpResponse (β : Type) where
  status : Nat
  json : Except JsError β
deriving DecidableEq

/-- The (ignored) JSON body of a register/complete response. -/
structure RegisterCompleteBody where
  raw : String
deriving DecidableEq

/-- The JSON body of a signin/complete response, whose `data` carries the
caller payload (modelled as an opaque string). -/
structure SigninCompleteBody where
  data : String
deriving DecidableEq

/-- The external collaborators of a registration ceremony: the window, the
combined fetch-plus-parse outcome of register/begin, the
`navigator.credentials.create` outcome, and the register/complete response. -/
structure RegisterEnv where
  window : Window
  beginResult : Except JsError (BeginResponse RegisterOptions)
  createResult : Except JsError AttestationCredential
  completeResult : Except JsError (HttpResponse RegisterCompleteBody)

/-- The external collaborators of a sign-in ceremony. -/
structure SigninEnv where
  window : Window
  beginResult : Except JsError (BeginResponse SigninOptions)
  getResult : Except JsError AssertionCredential
  completeResult : Except JsError (HttpResponse SigninCompleteBody)

/-- The option adaptation of `register` (lines 40-50 of the source): decode
the challenge, `user.id` and every `excludeCredentials[i].id`; replace an
explicitly null `authenticatorAttachment` by `undefined`. Runs outside any
`try`, so a decode failure rejects `register` directly. -/
def adaptRegisterOptions (o : RegisterOptions) : Except JsError AdaptedRegisterOptions := do
  let challenge ← coerceToArrayBuffer o.challenge
  let userId ← coerceToArrayBuffer o.user.id
  let excl ← o.excludeCredentials.mapM (fun c => do
    let i ← coerceToArrayBuffer c.id
    pure (AdaptedCredDescriptor.mk i))
  let att :=
    if o.authenticatorSelection.authenticatorAttachment = JsOpt.null then JsOpt.undefined
    else o.authenticatorSelection.authenticatorAttachment
  pure { challenge := challenge, user := { id := userId }, excludeCredentials := excl,
         authenticatorSelection := { authenticatorAttachment := att } }

/-- The option adaptation of `signin` (lines 156-160): decode the challenge
and every `allowCredentials[i].id`. Also outside any `try`. -/
def adaptSigninOptions (o : SigninOptions) : Except JsError AdaptedSigninOptions := do
  let challenge ← coerceToArrayBuffer o.challenge
  let allow ← o.allowCredentials.mapM (fun c => do
    let i ← coerceToArrayBuffer c.id
    pure (AdaptedCredDescriptor.mk i))
  pure { challenge := challenge, allowCredentials := allow }

/-- Response adaptation of `registerComplete` (lines 99-115): view each
buffer as a `Uint8Array`, encode via `coerceToBase64Url` (which on a
`Uint8Array` always succeeds, producing `coerceToBase64UrlBytes`), and
package with id/type/extensions. -/
def mkAttestationWire (c : AttestationCredential) : AttestationWire :=
  let attestationObject := newUint8Array c.response.attestationObject
  let clientDataJSON := newUint8Array c.response.clientDataJSON
  let rawId := newUint8Array c.rawId
  { id := c.id, rawId := coerceToBase64UrlBytes rawId, type := c.type,
    extensions := c.extensions,
    response := { AttestationObject := coerceToBase64UrlBytes attestationObject,
                  clientDataJson := coerceToBase64UrlBytes clientDataJSON } }

/-- Response adaptation of `signinComplete` (lines 203-218). -/
def mkAssertionWire (c : AssertionCredential) : AssertionWire :=
  let authData := newUint8Array c.response.authenticatorData
  let clientDataJSON := newUint8Array c.response.clientDataJSON
  let rawId := newUint8Array c.rawId
  let sig := newUint8Array c.response.signature
  { id := c.id, rawId := coerceToBase64UrlBytes rawId, type := c.type,
    extensions := c.extensions,
    response := { authenticatorData := coerceToBase64UrlBytes authData,
                  clientDataJson := coerceToBase64UrlBytes clientDataJSON,
                  signature := coerceToBase64UrlBytes sig } }

/-- `register(token)`: the full registration ceremony. Returns the ordered
effect trace and the settled value of the returned promise. Mirrors the
source control flow: `checkSupport` first; begin failures re-thrown; option
adaptation failures thrown directly; `navigator.credentials.create`
rejections re-thrown; inside `registerComplete` the hint is written on
status 200 before the body parse; and the final `try` swallows any
`registerComplete` rejection, after which `register` unconditionally calls
`setHint` again (line 67) when `registerComplete` resolved. -/
def register (cfg : Config) (env : RegisterEnv) (token : String) :
    List Effect × Except JsError Unit :=
  match checkSupport env.window with
  | .error e => ([], .error e)
  | .ok _ =>
    let beginReq := Effect.fetch (cfg.apiUrl ++ "register/begin") (registerHeaders cfg)
        (ReqBody.registerBegin token cfg.RPID cfg.Origin)
    match env.beginResult with
    | .error e => ([beginReq], .error e)
    | .ok resp =>
      match adaptRegisterOptions resp.data with
      | .error e => ([beginReq], .error e)
      | .ok opts =>
        match env.createResult with
        | .error e => ([beginReq, Effect.credentialsCreate opts], .error e)
        | .ok cred =>
          let wire := mkAttestationWire cred
          let compReq := Effect.fetch (cfg.apiUrl ++ "register/complete")
              (registerHeaders cfg)
              (ReqBody.registerComplete wire resp.sessionId cfg.RPID cfg.Origin)
          match env.completeResult with
          | .error _ =>
              ([beginReq, Effect.credentialsCreate opts, compReq], .ok ())
          | .ok http =>
            let hint1 := if http.status == 200 then setHintEff cfg "hint-passwordless" else []
            match http.json with
            | .error _ =>
                ([beginReq, Effect.credentialsCreate opts, compReq] ++ hint1, .ok ())
            | .ok _ =>
                ([beginReq, Effect.credentialsCreate opts, compReq] ++ hint1
                   ++ setHintEff cfg "hint-passwordless", .ok ())

/-- `signin(username)`: the full sign-in ceremony. Mirrors the source
control flow: `checkSupport` first; begin failures re-thrown; adaptation
failures thrown directly; `navigator.credentials.get` rejections re-thrown;
inside `signinComplete` the hint is written on status 200 before the body
parse; any `signinComplete` rejection (fetch or body parse) is re-thrown by
the final `try`; on success `signin` resolves with `response.data`. -/
def signin (cfg : Config) (env : SigninEnv) (username : String) :
    List Effect × Except JsError String :=
  match checkSupport env.window with
  | .error e => ([], .error e)
  | .ok _ =>
    let beginReq := Effect.fetch (cfg.apiUrl ++ "signin/begin") (signinHeaders cfg)
        (ReqBody.signinBegin username cfg.RPID cfg.Origin)
    match env.beginResult with
    | .error e => ([beginReq], .error e)
    | .ok resp =>
      match adaptSigninOptions resp.data with
      | .error e => ([beginReq], .error e)
      | .ok opts =>
        match env.getResult with
        | .error e => ([beginReq, Effect.credentialsGet opts], .error e)
        | .ok cred =>
          let wire := mkAssertionWire cred
          let compReq := Effect.fetch (cfg.apiUrl ++ "signin/complete")
              (signinHeaders cfg)
              (ReqBody.signinComplete wire resp.sessionId cfg.RPID cfg.Origin)
          match env.completeResult with
          | .error e =>
              ([beginReq, Effect.credentialsGet opts, compReq], .error e)
          | .ok http =>
            let hint1 := if http.status == 200 then setHintEff cfg "hint-passwordless" else []
            match http.json with
            | .error e =>
                ([beginReq, Effect.credentialsGet opts, compReq] ++ hint1, .error e)
            | .ok body =>
                ([beginReq, Effect.credentialsGet opts, compReq] ++ hint1, .ok body.data)

/-! ## Codec lemmas -/

/-- Pointwise form of the two url-safe replaces of `coerceToBase64Url`. -/
def urlChar (c : Char) : Char :=
  if c = '+' then '-' else if c = '/' then '_' else c

/-- Pointwise form of the two reverse replaces of `coerceToArrayBuffer`. -/
def deUrlChar (c : Char) : Char :=
  if c = '-' then '+' else if c = '_' then '/' else c

theorem jsReplace_plus_slash (s : List Char) :
    jsReplaceChar '/' '_' (jsReplaceChar '+' '-' s) = s.map urlChar := by
  simp only [jsReplaceChar, List.map_map]
  refine List.map_congr_left fun c _ => ?_
  by_cases h1 : c = '+'
  · simp [h1, urlChar, Function.comp]
  · by_cases h2 : c = '/' <;> simp [h1, h2, urlChar, Function.comp]

theorem jsReplace_minus_underscore (s : List Char) :
    urlToBase64 s = s.map deUrlChar := by
  simp only [urlToBase64, jsReplaceChar, List.map_map]
  refine List.map_congr_left fun c _ => ?_
  by_cases h1 : c = '-'
  · simp [h1, deUrlChar, Function.comp]
  · by_cases h2 : c = '_' <;> simp [h1, h2, deUrlChar, Function.comp]

theorem b64Index_b64Char : ∀ n : Fin 64, b64Index (b64Char n.val) = some n.val := by decide

theorem deUrl_url_b64Char : ∀ n : Fin 64, deUrlChar (urlChar (b64Char n.val)) = b64Char n.val := by
  decide

theorem b64Char_not_ws : ∀ n : Fin 64, isAsciiWhitespace (b64Char n.val) = false := by decide

theorem b64Char_ne_eqChar : ∀ n : Fin 64, b64Char n.val ≠ '=' := by decide

theorem urlChar_b64Char_ne :
    ∀ n : Fin 64, urlChar (b64Char n.val) ≠ '+' ∧ urlChar (b64Char n.val) ≠ '/' ∧
      urlChar (b64Char n.val) ≠ '=' := by decide

/-- Every sextet produced from bytes is below 64. -/
theorem toSextets_lt : ∀ (l : List Nat), (∀ x ∈ l, x < 256) → ∀ y ∈ toSextets l, y < 64
  | [], _ => by simp [toSextets]
  | [a], h => by
      have ha : a < 256 := h a (by simp)
      simp only [toSextets, List.mem_cons, List.not_mem_nil, or_false]
      rintro y (rfl | rfl) <;> omega
  | [a, b], h => by
      have ha : a < 256 := h a (by simp)
      have hb : b < 256 := h b (by simp)
      simp only [toSextets, List.mem_cons, List.not_mem_nil, or_false]
      rintro y (rfl | rfl | rfl) <;> omega
  | a :: b :: c :: rest, h => by
      have ha : a < 256 := h a (by simp)
      have hb : b < 256 := h b (by simp)
      have hc : c < 256 := h c (by simp)
      have ih := toSextets_lt rest (fun x hx => h x (by simp [hx]))
      simp only [toSextets, List.mem_cons]
      rintro y (rfl | rfl | rfl | rfl | hy)
      · omega
      · omega
      · omega
      · omega
      · exact ih y hy

/-- The sextet list never has length 1 mod 4. -/
theorem toSextets_length_mod : ∀ l : List Nat, (toSextets l).length % 4 ≠ 1
  | [] => by simp [toSextets]
  | [_] => by simp [toSextets]
  | [_, _] => by simp [toSextets]
  | _ :: _ :: _ :: rest => by
      have ih := toSextets_length_mod rest
      simp only [toSextets, List.length_cons]
      omega

/-- Decoding the sextets of a byte list recovers the bytes. -/
theorem atobCore_toSextets : ∀ (l : List Nat), (∀ x ∈ l, x < 256) → atobCore (toSextets l) = l
  | [], _ => rfl
  | [a], h => by
      have ha : a < 256 := h a (by simp)
      simp only [toSextets, atobCore, List.cons.injEq, and_true]
      omega
  | [a, b], h => by
      have ha : a < 256 := h a (by simp)
      have hb : b < 256 := h b (by simp)
      simp only [toSextets, atobCore, List.cons.injEq, and_true]
      refine ⟨by omega, by omega⟩
  | a :: b :: c :: rest, h => by
      have ha : a < 256 := h a (by simp)
      have hb : b < 256 := h b (by simp)
      have hc : c < 256 := h c (by simp)
      have ih := atobCore_toSextets rest (fun x hx => h x (by simp [hx]))
      cases hr : toSextets rest with
      | nil =>
          rw [hr] at ih
          simp only [toSextets, hr, atobCore, List.cons.injEq]
          refine ⟨by omega, by omega, by omega, ?_⟩
          simpa [atobCore] using ih
      | cons s t =>
          rw [hr] at ih
          simp only [toSextets, hr, atobCore, List.cons.injEq]
          exact ⟨by omega, by omega, by omega, ih⟩

/-- The padding characters are all `=`. -/
theorem padFor_all_eq : ∀ (l : List Nat), ∀ c ∈ padFor l, c = '='
  | [], _, hc => by simp [padFor] at hc
  | [_], c, hc => by simp only [padFor, List.mem_cons, List.not_mem_nil, or_false] at hc; tauto
  | [_, _], c, hc => by
      simp only [padFor, List.mem_cons, List.not_mem_nil, or_false] at hc; tauto
  | _ :: _ :: _ :: rest, c, hc => padFor_all_eq rest c (by simpa [padFor] using hc)

/-- `btoa` is the digit map of the sextets followed by the padding. -/
theorem btoa_eq_toSextets : ∀ l : List Nat, btoa l = (toSextets l).map b64Char ++ padFor l
  | [] => rfl
  | [_] => rfl
  | [_, _] => rfl
  | a :: b :: c :: rest => by
      simp only [btoa, toSextets, padFor, List.map_cons, List.cons_append,
        btoa_eq_toSextets rest]

theorem dropWhile_of_forall_neg {p : Char → Bool} :
    ∀ l : List Char, (∀ c ∈ l, p c = false) → l.dropWhile p = l
  | [], _ => rfl
  | c :: t, h => by
      simp [List.dropWhile_cons, h c (by simp)]

theorem dropWhile_append_of_forall {p : Char → Bool} :
    ∀ l1 l2 : List Char, (∀ c ∈ l1, p c = true) →
      (l1 ++ l2).dropWhile p = l2.dropWhile p
  | [], _, _ => rfl
  | c :: t, l2, h => by
      simp only [List.cons_append, List.dropWhile_cons, h c (by simp), if_true]
      exact dropWhile_append_of_forall t l2 (fun d hd => h d (by simp [hd]))

/-- Stripping trailing `=` from a `=`-free prefix followed by pure padding
recovers the prefix. -/
theorem stripTrailingEq_append (xs pad : List Char)
    (hp : ∀ c ∈ pad, c = '=') (hx : ∀ c ∈ xs, c ≠ '=') :
    stripTrailingEq (xs ++ pad) = xs := by
  unfold stripTrailingEq
  rw [List.reverse_append]
  rw [dropWhile_append_of_forall _ _ (fun c hc => by
    simp only [decide_eq_true_eq]
    exact hp c (List.mem_reverse.mp hc))]
  rw [dropWhile_of_forall_neg _ (fun c hc => by
    simp only [decide_eq_false_iff_not]
    exact hx c (List.mem_reverse.mp hc))]
  exact List.reverse_reverse xs

/-- Closed form of `coerceToBase64Url` on bytes: url-safe digits of the
sextets, no padding. -/
theorem coerceToBase64UrlBytes_eq (l : List Nat) (h : ∀ x ∈ l, x < 256) :
    coerceToBase64UrlBytes l = (toSextets l).map (fun n => urlChar (b64Char n)) := by
  unfold coerceToBase64UrlBytes base64ToUrl
  rw [jsReplace_plus_slash, btoa_eq_toSextets, List.map_append, List.map_map]
  refine stripTrailingEq_append _ _ (fun c hc => ?_) (fun c hc => ?_)
  · rcases List.mem_map.mp hc with ⟨d, hd, rfl⟩
    rw [padFor_all_eq l d hd]
    rfl
  · rcases List.mem_map.mp hc with ⟨n, hn, rfl⟩
    exact (urlChar_b64Char_ne ⟨n, toSextets_lt l h n hn⟩).2.2

/-- `stripB64Padding` is the identity on `=`-free strings. -/
theorem stripB64Padding_of_no_eq (s : List Char) (h : ∀ c ∈ s, c ≠ '=') :
    stripB64Padding s = s := by
  unfold stripB64Padding
  split
  · split
    · next heq =>
        exfalso
        refine h '=' ?_ rfl
        have : '=' ∈ s.reverse.take 2 := by rw [heq]; simp
        exact List.mem_reverse.mp (List.take_subset _ _ this)
    · split
      · next heq =>
          exfalso
          refine h '=' ?_ rfl
          have : '=' ∈ s.reverse.take 1 := by rw [heq]; simp
          exact List.mem_reverse.mp (List.take_subset _ _ this)
      · rfl
  · rfl

theorem mapM_b64Index_map : ∀ sx : List Nat, (∀ n ∈ sx, n < 64) →
    (sx.map b64Char).mapM b64Index = some sx
  | [], _ => rfl
  | n :: t, h => by
      have hn := b64Index_b64Char ⟨n, h n (by simp)⟩
      have ih := mapM_b64Index_map t (fun m hm => h m (by simp [hm]))
      simp only [List.map_cons, List.mapM_cons, hn, ih, Option.bind_eq_bind,
        Option.some_bind]
      rfl

/-- `atob` on the digit string of a bounded sextet list decodes it. -/
theorem atob_map_b64Char (sx : List Nat) (h : ∀ n ∈ sx, n < 64)
    (hlen : sx.length % 4 ≠ 1) :
    atob (sx.map b64Char) = some (atobCore sx) := by
  unfold atob
  have hfil : (sx.map b64Char).filter (fun c => !isAsciiWhitespace c) = sx.map b64Char := by
    refine List.filter_eq_self.mpr fun c hc => ?_
    rcases List.mem_map.mp hc with ⟨n, hn, rfl⟩
    simp [b64Char_not_ws ⟨n, h n hn⟩]
  rw [hfil]
  rw [stripB64Padding_of_no_eq _ (fun c hc => by
    rcases List.mem_map.mp hc with ⟨n, hn, rfl⟩
    exact b64Char_ne_eqChar ⟨n, h n hn⟩)]
  rw [List.length_map]
  have : (sx.length % 4 == 1) = false := by
    simp only [beq_eq_false_iff_ne, ne_eq]
    exact hlen
  rw [this]
  simp only [Bool.false_eq_true, if_false]
  rw [mapM_b64Index_map sx h]

/-- Decoding an encoded byte list recovers the bytes:
`coerceToArrayBuffer (coerceToBase64Url b) = b`. -/
theorem coerce_decode_encode (l : List Nat) (h : ∀ x ∈ l, x < 256) :
    coerceToArrayBuffer (BufLike.str (coerceToBase64UrlBytes l)) = Except.ok l := by
  have hmap : urlToBase64 (coerceToBase64UrlBytes l) = (toSextets l).map b64Char := by
    rw [coerceToBase64UrlBytes_eq l h, jsReplace_minus_underscore, List.map_map]
    refine List.map_congr_left fun n hn => ?_
    exact deUrl_url_b64Char ⟨n, toSextets_lt l h n hn⟩
  have hatob : atob (urlToBase64 (coerceToBase64UrlBytes l)) = some l := by
    rw [hmap, atob_map_b64Char _ (toSextets_lt l h) (toSextets_length_mod l),
      atobCore_toSextets l h]
  simp only [coerceToArrayBuffer, hatob]

theorem mem_of_getLast?_eq (l : List Char) (c : Char) (h : l.getLast? = some c) : c ∈ l := by
  rcases List.mem_getLast?_eq_getLast (show c ∈ l.getLast? from h) with ⟨hne, hc⟩
  rw [hc]
  exact List.getLast_mem hne

/-- Claim C1: codec round-trip. For every byte sequence `b`,
`coerceToArrayBuffer (coerceToBase64Url b) = b`; and for every valid
padding-stripped URL-safe text `t` (i.e. one produced by the encoder),
`coerceToBase64Url (coerceToArrayBuffer t) = t`. -/
theorem codec_roundtrip :
    (∀ b : List Nat, (∀ x ∈ b, x < 256) →
      (coerceToBase64Url (BufLike.u8 b)).bind (fun t => coerceToArrayBuffer (BufLike.str t)) =
        Except.ok b)
  ∧ (∀ t : List Char,
      (∃ b : List Nat, (∀ x ∈ b, x < 256) ∧ coerceToBase64Url (BufLike.u8 b) = Except.ok t) →
      (coerceToArrayBuffer (BufLike.str t)).bind
        (fun b => coerceToBase64Url (BufLike.u8 b)) = Except.ok t) := by
  constructor
  · intro b hb
    show coerceToArrayBuffer (BufLike.str (coerceToBase64UrlBytes b)) = Except.ok b
    exact coerce_decode_encode b hb
  · rintro t ⟨b, hb, henc⟩
    have ht : coerceToBase64UrlBytes b = t := by
      have h1 : coerceToBase64Url (BufLike.u8 b) = Except.ok (coerceToBase64UrlBytes b) := rfl
      rw [h1] at henc
      exact Except.ok.inj henc
    rw [← ht, coerce_decode_encode b hb]
    show coerceToBase64Url (BufLike.u8 b) = Except.ok (coerceToBase64UrlBytes b)
    rfl

/-- Witness for C1 at the concrete bytes `[1, 2, 3]` and their encoding
`"AQID"`. -/
theorem codec_roundtrip_witness :
    ((coerceToBase64Url (BufLike.u8 [1, 2, 3])).bind
        (fun t => coerceToArrayBuffer (BufLike.str t)) = Except.ok [1, 2, 3])
  ∧ ((coerceToArrayBuffer (BufLike.str ['A', 'Q', 'I', 'D'])).bind
        (fun b => coerceToBase64Url (BufLike.u8 b)) = Except.ok ['A', 'Q', 'I', 'D']) :=
  ⟨codec_roundtrip.1 [1, 2, 3] (by decide),
   codec_roundtrip.2 ['A', 'Q', 'I', 'D'] ⟨[1, 2, 3], by decide, rfl⟩⟩

/-- Claim C9: for every bytes-like input, the encoder output contains no
`+`, contains no `/`, and does not end in `=`. -/
theorem encode_urlsafe (b : List Nat) (h : ∀ x ∈ b, x < 256) (t : List Char)
    (henc : coerceToBase64Url (BufLike.u8 b) = Except.ok t) :
    '+' ∉ t ∧ '/' ∉ t ∧ t.getLast? ≠ some '=' := by
  have ht : t = (toSextets b).map (fun n => urlChar (b64Char n)) := by
    have h1 : coerceToBase64Url (BufLike.u8 b) = Except.ok (coerceToBase64UrlBytes b) := rfl
    rw [h1] at henc
    rw [← Except.ok.inj henc]
    exact coerceToBase64UrlBytes_eq b h
  subst ht
  refine ⟨fun hc => ?_, fun hc => ?_, fun hl => ?_⟩
  · rcases List.mem_map.mp hc with ⟨n, hn, heq1⟩
    exact (urlChar_b64Char_ne ⟨n, toSextets_lt b h n hn⟩).1 heq1
  · rcases List.mem_map.mp hc with ⟨n, hn, heq2⟩
    exact (urlChar_b64Char_ne ⟨n, toSextets_lt b h n hn⟩).2.1 heq2
  · rcases List.mem_map.mp (mem_of_getLast?_eq _ _ hl) with ⟨n, hn, heq3⟩
    exact (urlChar_b64Char_ne ⟨n, toSextets_lt b h n hn⟩).2.2 heq3

/-- Witness for C9 at the byte `[251]`, whose encoding exercises the `+`
to `-` replacement. -/
theorem encode_urlsafe_witness :
    '+' ∉ ['-', 'w'] ∧ '/' ∉ ['-', 'w'] ∧ (['-', 'w'] : List Char).getLast? ≠ some '=' :=
  encode_urlsafe [251] (by decide) ['-', 'w'] rfl

/-! ## Concrete fixtures for witnesses and counterexamples -/

/-- A window whose `PublicKeyCredential` global is a function. -/
def winOk : Window := { publicKeyCredential := JSType.function }

/-- A window without a usable `PublicKeyCredential` global. -/
def winNo : Window := { publicKeyCredential := JSType.undefined }

/-- A concrete configuration under the cookie hint strategy. -/
def cfg0 : Config :=
  { apiUrl := "https://api.example/", apiKey := "k", Origin := "https://app.example",
    RPID := "app.example", useHints := "cookie" }

/-- A concrete configuration with hints disabled. -/
def cfgNoHints : Config :=
  { apiUrl := "https://api.example/", apiKey := "k", Origin := "https://app.example",
    RPID := "app.example", useHints := "none" }

/-- A concrete register/begin `data` payload with a null
`authenticatorAttachment`. -/
def regOptions0 : RegisterOptions :=
  { challenge := BufLike.u8 [9], user := { id := BufLike.u8 [7] },
    excludeCredentials := [{ id := BufLike.u8 [5] }],
    authenticatorSelection := { authenticatorAttachment := JsOpt.null } }

/-- A concrete platform credential for registration. -/
def attCred0 : AttestationCredential :=
  { id := "c1", rawId := [1], type := "public-key", extensions := "ext",
    response := { attestationObject := [2], clientDataJSON := [3] } }

/-- A registration environment whose complete call returns HTTP 500 with a
JSON-parseable body. -/
def regEnv500 : RegisterEnv :=
  { window := winOk,
    beginResult := .ok { data := regOptions0, sessionId := "s-1" },
    createResult := .ok attCred0,
    completeResult := .ok { status := 500, json := .ok { raw := "err" } } }

/-- A registration environment whose platform create call rejects. -/
def regEnvCreateFail : RegisterEnv :=
  { window := winOk,
    beginResult := .ok { data := regOptions0, sessionId := "s-1" },
    createResult := .error (JsError.platform 20),
    completeResult := .ok { status := 200, json := .ok { raw := "ok" } } }

/-- An unsupported-window registration environment. -/
def regEnvNoSupport : RegisterEnv :=
  { window := winNo,
    beginResult := .ok { data := regOptions0, sessionId := "s-1" },
    createResult := .ok attCred0,
    completeResult := .ok { status := 200, json := .ok { raw := "ok" } } }

/-- The sign-in begin `data` payload used by the concrete environments. -/
def signinOptions0 : SigninOptions :=
  { challenge := BufLike.u8 [9], allowCredentials := [] }

/-- The stub platform credential of the spec's sign-in example. -/
def assertCred0 : AssertionCredential :=
  { id := "cred1", rawId := [1, 2, 3], type := "public-key", extensions := "ext",
    response := { authenticatorData := [4, 5], clientDataJSON := [6, 7],
                  signature := [8, 9] } }

/-- A sign-in environment whose complete call returns HTTP 400 with a
JSON-parseable body. -/
def sigEnv400 : SigninEnv :=
  { window := winOk,
    beginResult := .ok { data := signinOptions0, sessionId := "s-123" },
    getResult := .ok assertCred0,
    completeResult := .ok { status := 400, json := .ok { data := "d" } } }

/-- A fully successful sign-in environment (HTTP 200, parseable body). -/
def sigEnv200 : SigninEnv :=
  { window := winOk,
    beginResult := .ok { data := signinOptions0, sessionId := "s-123" },
    getResult := .ok assertCred0,
    completeResult := .ok { status := 200, json := .ok { data := "payload" } } }

/-! ## Capability gate and hint-store claims -/

/-- Claim C6: `checkSupport` fails with the unsupported-environment error
exactly when the public-key-credential global is absent or not of function
type, is a no-op otherwise, and is the first step of both `register` and
`signin`: when it fails, the ceremony rejects with that error and performs
no effect at all. -/
theorem checkSupport_spec :
    (∀ w : Window,
      (checkSupport w = Except.error unsupportedEnvironmentError ↔
        (w.publicKeyCredential = JSType.undefined ∨ w.publicKeyCredential ≠ JSType.function))
      ∧ ((w.publicKeyCredential ≠ JSType.undefined ∧ w.publicKeyCredential = JSType.function) →
          checkSupport w = Except.ok ()))
  ∧ (∀ (cfg : Config) (env : RegisterEnv) (token : String) (e : JsError),
      checkSupport env.window = Except.error e →
      register cfg env token = ([], Except.error e))
  ∧ (∀ (cfg : Config) (env : SigninEnv) (username : String) (e : JsError),
      checkSupport env.window = Except.error e →
      signin cfg env username = ([], Except.error e)) := by
  refine ⟨fun w => ?_, fun cfg env token e h => ?_, fun cfg env username e h => ?_⟩
  · obtain ⟨pkc⟩ := w
    cases pkc <;> simp [checkSupport, isBrowserSupported, unsupportedEnvironmentError]
  · simp [register, h]
  · simp [signin, h]

/-- Witness for C6 at a function-typed global, an object-typed global, and
an unsupported registration environment. -/
theorem checkSupport_spec_witness :
    checkSupport winOk = Except.ok ()
    ∧ checkSupport winNo = Except.error unsupportedEnvironmentError
    ∧ register cfg0 regEnvNoSupport "tok" = ([], Except.error unsupportedEnvironmentError) :=
  ⟨(checkSupport_spec.1 winOk).2 (by decide),
   (checkSupport_spec.1 winNo).1.mpr (by decide),
   checkSupport_spec.2.1 cfg0 regEnvNoSupport "tok" unsupportedEnvironmentError rfl⟩

/-- Claim C10: under any hint strategy other than `"cookie"`,
`hasPasswordlessHint` returns `undefined` (`none`, not `false`) and
`setHint` writes nothing. -/
theorem hints_noncookie (cfg : Config) (jar : CookieJar) (hint : String)
    (h : cfg.useHints ≠ "cookie") :
    hasPasswordlessHint cfg jar = none ∧ setHintEff cfg hint = [] := by
  constructor <;> simp [hasPasswordlessHint, setHintEff, h]

/-- Witness for C10 at the hints-disabled configuration. -/
theorem hints_noncookie_witness :
    hasPasswordlessHint cfgNoHints [] = none
    ∧ setHintEff cfgNoHints "hint-passwordless" = [] :=
  hints_noncookie cfgNoHints [] "hint-passwordless" (by decide)

/-! ## Registration ceremony claims -/

theorem append_ne_of_data_ne (s a b : String) (h : a.data ≠ b.data) : s ++ a ≠ s ++ b := by
  intro he
  have hd : s.data ++ a.data = s.data ++ b.data := by
    rw [← String.data_append, ← String.data_append, he]
  exact h (List.append_cancel_left hd)

/-- Claim C4: when the platform create-credential invocation rejects, the
registration ceremony rejects with that platform error and no request is
ever made to the register/complete endpoint. -/
theorem register_platform_reject (cfg : Config) (env : RegisterEnv) (token : String)
    (resp : BeginResponse RegisterOptions) (opts : AdaptedRegisterOptions) (e : JsError)
    (hsup : checkSupport env.window = Except.ok ())
    (hbeg : env.beginResult = Except.ok resp)
    (hadapt : adaptRegisterOptions resp.data = Except.ok opts)
    (hcre : env.createResult = Except.error e) :
    (register cfg env token).2 = Except.error e
    ∧ ∀ u hs b2, Effect.fetch u hs b2 ∈ (register cfg env token).1 →
        u ≠ cfg.apiUrl ++ "register/complete" := by
  have hreg : register cfg env token =
      ([Effect.fetch (cfg.apiUrl ++ "register/begin") (registerHeaders cfg)
          (ReqBody.registerBegin token cfg.RPID cfg.Origin),
        Effect.credentialsCreate opts], Except.error e) := by
    simp [register, hsup, hbeg, hadapt, hcre]
  rw [hreg]
  refine ⟨rfl, fun u hs b2 hmem => ?_⟩
  simp only [List.mem_cons, List.not_mem_nil, or_false] at hmem
  rcases hmem with h1 | h2
  · obtain ⟨rfl, -, -⟩ := Effect.fetch.inj h1
    exact append_ne_of_data_ne _ _ _ (by decide)
  · exact absurd h2 (by simp)

/-- Witness for C4 at the concrete rejecting environment. -/
theorem register_platform_reject_witness :
    (register cfg0 regEnvCreateFail "tok").2 = Except.error (JsError.platform 20)
    ∧ ∀ u hs b2, Effect.fetch u hs b2 ∈ (register cfg0 regEnvCreateFail "tok").1 →
        u ≠ cfg0.apiUrl ++ "register/complete" :=
  register_platform_reject cfg0 regEnvCreateFail "tok"
    { data := regOptions0, sessionId := "s-1" }
    { challenge := [9], user := { id := [7] }, excludeCredentials := [{ id := [5] }],
      authenticatorSelection := { authenticatorAttachment := JsOpt.undefined } }
    (JsError.platform 20) rfl rfl rfl rfl

/-- Claim C5: when the begin response carries an explicitly null
`authenticatorSelection.authenticatorAttachment`, the adapted options handed
to the platform create invocation carry `undefined` (the field is omitted,
not null). -/
theorem exceptBind_ok {ε α β : Type} (a : α) (f : α → Except ε β) :
    (Except.ok a : Except ε α) >>= f = f a := rfl

theorem exceptBind_error {ε α β : Type} (e : ε) (f : α → Except ε β) :
    (Except.error e : Except ε α) >>= f = Except.error e := rfl

theorem exceptMap_ok {ε α β : Type} (a : α) (f : α → β) :
    f <$> (Except.ok a : Except ε α) = Except.ok (f a) := rfl

theorem exceptMap_error {ε α β : Type} (e : ε) (f : α → β) :
    f <$> (Except.error e : Except ε α) = (Except.error e : Except ε β) := rfl

/-- The attachment field of successfully adapted registration options is the
null-to-undefined normalization of the received one. -/
theorem adaptRegisterOptions_attachment (o : RegisterOptions) (opts : AdaptedRegisterOptions)
    (h : adaptRegisterOptions o = Except.ok opts) :
    opts.authenticatorSelection.authenticatorAttachment =
      (if o.authenticatorSelection.authenticatorAttachment = JsOpt.null then JsOpt.undefined
       else o.authenticatorSelection.authenticatorAttachment) := by
  rcases hch : coerceToArrayBuffer o.challenge with e1 | challenge
  · simp only [adaptRegisterOptions, hch, exceptBind_error] at h
    exact absurd h (by simp)
  rcases hid : coerceToArrayBuffer o.user.id with e2 | userId
  · simp only [adaptRegisterOptions, hch, hid, exceptBind_ok, exceptBind_error] at h
    exact absurd h (by simp)
  rcases hex : o.excludeCredentials.mapM (fun c => do
      let i ← coerceToArrayBuffer c.id
      pure (AdaptedCredDescriptor.mk i)) with e3 | excl
  · simp only [adaptRegisterOptions, hch, hid, hex, exceptBind_ok, exceptBind_error] at h
    exact absurd h (by simp)
  · simp only [adaptRegisterOptions, hch, hid, hex, exceptBind_ok] at h
    rw [← Except.ok.inj h]

/-- Claim C5: when the begin response carries an explicitly null
`authenticatorSelection.authenticatorAttachment`, the adapted options handed
to the platform create invocation carry `undefined` (the field is omitted,
not null). -/
theorem register_null_attachment (cfg : Config) (env : RegisterEnv) (token : String)
    (resp : BeginResponse RegisterOptions) (opts : AdaptedRegisterOptions)
    (hsup : checkSupport env.window = Except.ok ())
    (hbeg : env.beginResult = Except.ok resp)
    (hatt : resp.data.authenticatorSelection.authenticatorAttachment = JsOpt.null)
    (hadapt : adaptRegisterOptions resp.data = Except.ok opts) :
    opts.authenticatorSelection.authenticatorAttachment = JsOpt.undefined
    ∧ Effect.credentialsCreate opts ∈ (register cfg env token).1 := by
  constructor
  · rw [adaptRegisterOptions_attachment resp.data opts hadapt, hatt]
    rfl
  · simp only [register, hsup, hbeg, hadapt]
    rcases env.createResult with e4 | cred
    · simp
    · rcases env.completeResult with e5 | http
      · simp
      · rcases hj : http.json with e6 | body2 <;> simp [hj]

/-- The adaptation of `regOptions0`. -/
def adaptedOpts0 : AdaptedRegisterOptions :=
  { challenge := [9], user := { id := [7] }, excludeCredentials := [{ id := [5] }],
    authenticatorSelection := { authenticatorAttachment := JsOpt.undefined } }

/-- Witness for C5 at the concrete null-attachment environment. -/
theorem register_null_attachment_witness :
    adaptedOpts0.authenticatorSelection.authenticatorAttachment = JsOpt.undefined
    ∧ Effect.credentialsCreate adaptedOpts0 ∈ (register cfg0 regEnv500 "tok").1 :=
  register_null_attachment cfg0 regEnv500 "tok"
    { data := regOptions0, sessionId := "s-1" } adaptedOpts0 rfl rfl rfl rfl

/-- Counterexample to C2 as stated: a registration whose complete call
returns HTTP 500 with a JSON-parseable body resolves, yet the
`hint-passwordless` cookie IS written (by the unconditional `setHint` call
of `register` after `registerComplete` resolves). -/
theorem register_complete_swallow_cex :
    (register cfg0 regEnv500 "tok").2 = Except.ok ()
    ∧ Effect.cookieSet "hint-passwordless" "1" 365 ∈ (register cfg0 regEnv500 "tok").1 :=
  ⟨rfl, by decide⟩

/-- Claim C2 as amended: whenever the begin, adaptation and platform-create
phases succeed, `register` resolves regardless of the complete phase; and
the hint cookie is written exactly when the cookie strategy is active and
either the complete response has status 200 or its body parses as JSON (the
latter because `register` unconditionally calls `setHint` once
`registerComplete` resolves); in particular on a rejected complete fetch or
unparseable body, no hint is written. -/
theorem register_complete_swallow (cfg : Config) (env : RegisterEnv) (token : String)
    (resp : BeginResponse RegisterOptions) (opts : AdaptedRegisterOptions)
    (cred : AttestationCredential)
    (hsup : checkSupport env.window = Except.ok ())
    (hbeg : env.beginResult = Except.ok resp)
    (hadapt : adaptRegisterOptions resp.data = Except.ok opts)
    (hcre : env.createResult = Except.ok cred) :
    (register cfg env token).2 = Except.ok ()
    ∧ (Effect.cookieSet "hint-passwordless" "1" 365 ∈ (register cfg env token).1 ↔
        (cfg.useHints = "cookie" ∧ ∃ http, env.completeResult = Except.ok http ∧
          (http.status = 200 ∨ ∃ b2, http.json = Except.ok b2))) := by
  simp only [register, hsup, hbeg, hadapt, hcre]
  rcases hcomp : env.completeResult with e | http
  · simp [setHintEff]
  · rcases hj : http.json with e2 | body2 <;>
      by_cases hst : http.status = 200 <;>
      simp [hj, hst, setHintEff]

/-- Witness for C2 (amended) at the HTTP 500 environment: the ceremony
resolves and the hint is written because the body parsed. -/
theorem register_complete_swallow_witness :
    (register cfg0 regEnv500 "tok").2 = Except.ok ()
    ∧ (Effect.cookieSet "hint-passwordless" "1" 365 ∈ (register cfg0 regEnv500 "tok").1 ↔
        (cfg0.useHints = "cookie" ∧ ∃ http, regEnv500.completeResult = Except.ok http ∧
          (http.status = 200 ∨ ∃ b2, http.json = Except.ok b2))) :=
  register_complete_swallow cfg0 regEnv500 "tok"
    { data := regOptions0, sessionId := "s-1" } adaptedOpts0 attCred0 rfl rfl rfl rfl

/-! ## Sign-in ceremony claims -/

/-- Counterexample to C3 as stated: a sign-in whose complete call returns
HTTP 400 with a JSON-parseable body resolves with the body's `data` field —
`signin` does not reject, and no hint is written. -/
theorem signin_complete_cex :
    (signin cfg0 sigEnv400 "alice").2 = Except.ok "d"
    ∧ Effect.cookieSet "hint-passwordless" "1" 365 ∉ (signin cfg0 sigEnv400 "alice").1 :=
  ⟨rfl, by decide⟩

/-- Claim C3 as amended: a non-success status of the signin/complete call
does not by itself make `signin` reject; when the response body parses as
JSON, `signin` resolves with its `data` field and writes no hint, and
`signin` rejects exactly when the complete fetch or the body parse rejects,
re-throwing that error. -/
theorem signin_complete_behavior (cfg : Config) (env : SigninEnv) (username : String)
    (resp : BeginResponse SigninOptions) (opts : AdaptedSigninOptions)
    (cred : AssertionCredential) (http : HttpResponse SigninCompleteBody)
    (hsup : checkSupport env.window = Except.ok ())
    (hbeg : env.beginResult = Except.ok resp)
    (hadapt : adaptSigninOptions resp.data = Except.ok opts)
    (hget : env.getResult = Except.ok cred)
    (hcomp : env.completeResult = Except.ok http)
    (hst : http.status ≠ 200) :
    (∀ body2, http.json = Except.ok body2 →
      (signin cfg env username).2 = Except.ok body2.data
      ∧ Effect.cookieSet "hint-passwordless" "1" 365 ∉ (signin cfg env username).1)
    ∧ (∀ e, http.json = Except.error e →
        (signin cfg env username).2 = Except.error e) := by
  simp only [signin, hsup, hbeg, hadapt, hget, hcomp]
  constructor
  · intro body2 hj
    simp [hj, hst, setHintEff]
  · intro e hj
    simp [hj, hst]

/-- Witness for C3 (amended) at the HTTP 400 environment. -/
theorem signin_complete_behavior_witness :
    ((signin cfg0 sigEnv400 "alice").2 = Except.ok "d"
      ∧ Effect.cookieSet "hint-passwordless" "1" 365 ∉ (signin cfg0 sigEnv400 "alice").1) :=
  (signin_complete_behavior cfg0 sigEnv400 "alice"
      { data := signinOptions0, sessionId := "s-123" }
      { challenge := [9], allowCredentials := [] } assertCred0
      { status := 400, json := Except.ok { data := "d" } }
      rfl rfl rfl rfl rfl (by decide)).1 { data := "d" } rfl

/-- Claim C7: on the fully successful sign-in with username `"alice"`,
session `"s-123"` and the stub credential with `rawId = [1,2,3]`, the
signin/complete request body's `response.rawId` is the URL-safe encoding of
`[1,2,3]`, the ceremony resolves with the server payload, the
`hint-passwordless` cookie is written, and `hasPasswordlessHint` afterwards
returns `true`. -/
theorem signin_success_path :
    (∃ wire : AssertionWire,
      Effect.fetch (cfg0.apiUrl ++ "signin/complete") (signinHeaders cfg0)
          (ReqBody.signinComplete wire "s-123" cfg0.RPID cfg0.Origin)
        ∈ (signin cfg0 sigEnv200 "alice").1
      ∧ wire.rawId = coerceToBase64UrlBytes [1, 2, 3])
    ∧ (signin cfg0 sigEnv200 "alice").2 = Except.ok "payload"
    ∧ Effect.cookieSet "hint-passwordless" "1" 365 ∈ (signin cfg0 sigEnv200 "alice").1
    ∧ hasPasswordlessHint cfg0 (applyEffects [] (signin cfg0 sigEnv200 "alice").1) =
        some true :=
  ⟨⟨mkAssertionWire assertCred0, by decide, rfl⟩, rfl, by decide, rfl⟩

theorem register_fetch_headers (cfg : Config) (env : RegisterEnv) (token : String) :
    ∀ u hs b2, Effect.fetch u hs b2 ∈ (register cfg env token).1 →
      hs = registerHeaders cfg := by
  intro u hs b2 hmem
  revert hmem
  unfold register setHintEff
  rcases hc : checkSupport env.window with e | u1 <;> simp only [hc]
  · simp
  rcases hb : env.beginResult with e | resp <;> simp only [hb]
  · (intro hmem; simp at hmem); tauto
  rcases ha : adaptRegisterOptions resp.data with e | opts <;> simp only [ha]
  · (intro hmem; simp at hmem); tauto
  rcases hcr : env.createResult with e2 | cred <;> simp only [hcr]
  · (intro hmem; simp at hmem); tauto
  rcases hcp : env.completeResult with e3 | http <;> simp only [hcp]
  · (intro hmem; simp at hmem); tauto
  rcases hj : http.json with e4 | body2 <;> simp only [hj] <;>
    by_cases hst : http.status = 200 <;> by_cases hu : cfg.useHints = "cookie" <;>
    (intro hmem; simp [hst, hu] at hmem) <;> tauto

theorem signin_fetch_headers (cfg : Config) (env : SigninEnv) (username : String) :
    ∀ u hs b2, Effect.fetch u hs b2 ∈ (signin cfg env username).1 →
      hs = signinHeaders cfg := by
  intro u hs b2 hmem
  revert hmem
  unfold signin setHintEff
  rcases hc : checkSupport env.window with e | u1 <;> simp only [hc]
  · simp
  rcases hb : env.beginResult with e | resp <;> simp only [hb]
  · (intro hmem; simp at hmem); tauto
  rcases ha : adaptSigninOptions resp.data with e | opts <;> simp only [ha]
  · (intro hmem; simp at hmem); tauto
  rcases hg : env.getResult with e2 | cred <;> simp only [hg]
  · (intro hmem; simp at hmem); tauto
  rcases hcp : env.completeResult with e3 | http <;> simp only [hcp]
  · (intro hmem; simp at hmem); tauto
  rcases hj : http.json with e4 | body2 <;> simp only [hj] <;>
    by_cases hst : http.status = 200 <;> by_cases hu : cfg.useHints = "cookie" <;>
    (intro hmem; simp [hst, hu] at hmem) <;> tauto

/-- Counterexample to C8 as stated: the signin/begin request of a concrete
ceremony is sent with only the `Accept` and `ApiKey` headers — no
`Content-Type` header, although the request carries a body. -/
theorem request_headers_cex :
    Effect.fetch (cfg0.apiUrl ++ "signin/begin")
        [("Accept", "application/json"), ("ApiKey", "k")]
        (ReqBody.signinBegin "alice" cfg0.RPID cfg0.Origin) ∈ (signin cfg0 sigEnv400 "alice").1
    ∧ "Content-Type" ∉
        ([("Accept", "application/json"), ("ApiKey", "k")] : List (String × String)).map
          Prod.fst :=
  ⟨by decide, by decide⟩

/-- Claim C8 as amended: every fetch of a registration ceremony carries
`Accept: application/json`, `Content-Type: application/json` and the
API-key header; every fetch of a sign-in ceremony (begin and complete)
carries only `Accept: application/json` and the API-key header — the
`Content-Type` header is absent there. -/
theorem request_headers (cfg : Config) (renv : RegisterEnv) (senv : SigninEnv)
    (token username : String) :
    (∀ u hs b2, Effect.fetch u hs b2 ∈ (register cfg renv token).1 →
        hs = [("Accept", "application/json"), ("Content-Type", "application/json"),
              ("ApiKey", cfg.apiKey)])
    ∧ (∀ u hs b2, Effect.fetch u hs b2 ∈ (signin cfg senv username).1 →
        hs = [("Accept", "application/json"), ("ApiKey", cfg.apiKey)]
        ∧ "Content-Type" ∉ hs.map Prod.fst) := by
  constructor
  · intro u hs b2 hmem
    exact register_fetch_headers cfg renv token u hs b2 hmem
  · intro u hs b2 hmem
    have h := signin_fetch_headers cfg senv username u hs b2 hmem
    subst h
    exact ⟨rfl, by simp [signinHeaders]⟩

/-- Witness for C8 (amended) at the signin/begin fetch of a concrete
ceremony. -/
theorem request_headers_witness :
    ([("Accept", "application/json"), ("ApiKey", "k")] : List (String × String)) =
      [("Accept", "application/json"), ("ApiKey", cfg0.apiKey)]
    ∧ "Content-Type" ∉
        ([("Accept", "application/json"), ("ApiKey", "k")] : List (String × String)).map
          Prod.fst :=
  (request_headers cfg0 regEnv500 sigEnv400 "tok" "alice").2
    (cfg0.apiUrl ++ "signin/begin") [("Accept", "application/json"), ("ApiKey", "k")]
    (ReqBody.signinBegin "alice" cfg0.RPID cfg0.Origin) (by decide)
